import Mathlib

/-!
Verification development for the ComicX comic-book generation pipeline.

Shallow embedding of the pipeline's core operations, translated from the
Python sources:
  * `src/tools/layout_tools.py`  — grid page layout and panel placement
  * `src/tools/export_tools.py`  — per-format export and the export manager
  * `src/tools/image_tools.py`   — image-generation response handling
  * `src/main.py`                — visual-stage fan-out over panels
  * `src/api/main.py`            — job record and its state updates

Python machine integers are modelled as `Int` (arbitrary precision, as in
Python); Python floor division `//` is `Int.fdiv`; Python code that raises
is modelled with `Except`.
-/

deriving instance DecidableEq for Except

namespace ComicX

/-! ## Layout data model (`src/tools/layout_tools.py`) -/

/-- `LayoutConfig` from `layout_tools.py` (defaults 1200/1600/50/20, white). -/
structure LayoutConfig where
  page_width : Int := 1200
  page_height : Int := 1600
  margin : Int := 50
  gutter : Int := 20
  background_color : String := "white"
deriving Repr, DecidableEq

/-- `PanelPosition` from `layout_tools.py`. -/
structure PanelPosition where
  x : Int
  y : Int
  width : Int
  height : Int
deriving Repr, DecidableEq

/-- `cols = 2 if num_panels > 1 else 1` in `ComicLayoutTool._grid_layout`. -/
def gridCols (numPanels : Nat) : Nat :=
  if numPanels > 1 then 2 else 1

/-- `rows = (num_panels + cols - 1) // cols` in `ComicLayoutTool._grid_layout`.
All quantities are nonnegative, so Python floor division is `Nat` division. -/
def gridRows (numPanels : Nat) : Nat :=
  (numPanels + gridCols numPanels - 1) / gridCols numPanels

/-- `available_width = page_width - 2*margin - (cols-1)*gutter`. -/
def availableWidth (numPanels : Nat) (config : LayoutConfig) : Int :=
  config.page_width - 2 * config.margin - ((gridCols numPanels : Int) - 1) * config.gutter

/-- `available_height = page_height - 2*margin - (rows-1)*gutter`. -/
def availableHeight (numPanels : Nat) (config : LayoutConfig) : Int :=
  config.page_height - 2 * config.margin - ((gridRows numPanels : Int) - 1) * config.gutter

/-- `panel_width = available_width // cols` (Python floor division). -/
def panelWidth (numPanels : Nat) (config : LayoutConfig) : Int :=
  (availableWidth numPanels config).fdiv (gridCols numPanels)

/-- `panel_height = available_height // rows` (Python floor division). -/
def panelHeight (numPanels : Nat) (config : LayoutConfig) : Int :=
  (availableHeight numPanels config).fdiv (gridRows numPanels)

/-- The position list built by the `for i in range(num_panels)` loop of
`ComicLayoutTool._grid_layout`: `row = i // cols`, `col = i % cols`,
`x = margin + col*(panel_width+gutter)`, `y = margin + row*(panel_height+gutter)`. -/
def gridPositions (numPanels : Nat) (config : LayoutConfig) : List PanelPosition :=
  (List.range numPanels).map (fun i =>
    let row := i / gridCols numPanels
    let col := i % gridCols numPanels
    { x := config.margin + (col : Int) * (panelWidth numPanels config + config.gutter)
      y := config.margin + (row : Int) * (panelHeight numPanels config + config.gutter)
      width := panelWidth numPanels config
      height := panelHeight numPanels config })

/-- `ComicLayoutTool._grid_layout`.  When `rows = 0` (that is, `num_panels = 0`)
the Python line `panel_height = available_height // rows` raises
`ZeroDivisionError`, which propagates out of the tool; this is modelled by the
`Except.error` branch.  Otherwise the loop above produces the positions. -/
def gridLayout (numPanels : Nat) (config : LayoutConfig) :
    Except String (List PanelPosition) :=
  if gridRows numPanels = 0 then
    Except.error "ZeroDivisionError: integer division or modulo by zero"
  else
    Except.ok (gridPositions numPanels config)

/-- `ComicLayoutTool._dynamic_layout`: `return self._grid_layout(...)`. -/
def dynamicLayout (numPanels : Nat) (config : LayoutConfig) :
    Except String (List PanelPosition) :=
  gridLayout numPanels config

/-- `ComicLayoutTool._traditional_layout`: `return self._grid_layout(...)`. -/
def traditionalLayout (numPanels : Nat) (config : LayoutConfig) :
    Except String (List PanelPosition) :=
  gridLayout numPanels config

/-- `ComicLayoutTool._calculate_positions`: dispatch on `layout_style`
with a default branch falling back to the grid layout. -/
def calculatePositions (numPanels : Nat) (layoutStyle : String)
    (config : LayoutConfig) : Except String (List PanelPosition) :=
  if layoutStyle = "grid" then gridLayout numPanels config
  else if layoutStyle = "dynamic" then dynamicLayout numPanels config
  else if layoutStyle = "traditional" then traditionalLayout numPanels config
  else gridLayout numPanels config

/-- A rectangle lies fully within the page interior: nonnegative extent,
at least `margin` away from every page edge. -/
def withinPage (config : LayoutConfig) (p : PanelPosition) : Prop :=
  0 ≤ p.width ∧ 0 ≤ p.height ∧
  config.margin ≤ p.x ∧ config.margin ≤ p.y ∧
  p.x + p.width ≤ config.page_width - config.margin ∧
  p.y + p.height ≤ config.page_height - config.margin

instance (config : LayoutConfig) (p : PanelPosition) :
    Decidable (withinPage config p) := by
  unfold withinPage; infer_instance

/-- Two rectangles do not overlap: they are separated along some axis. -/
def disjointRect (p q : PanelPosition) : Prop :=
  p.x + p.width ≤ q.x ∨ q.x + q.width ≤ p.x ∨
  p.y + p.height ≤ q.y ∨ q.y + q.height ≤ p.y

instance (p q : PanelPosition) : Decidable (disjointRect p q) := by
  unfold disjointRect; infer_instance

/-- The layout configuration used for claim counterexamples: all four numeric
parameters are positive, but the margins leave no interior room. -/
def tightConfig : LayoutConfig :=
  { page_width := 100, page_height := 100, margin := 60, gutter := 10 }

/-! ## Panel placement (`ComicLayoutTool._place_panel`) -/

/-- The per-panel data `_place_panel` reads: the Python dict entry
`panel_data.get('image_path')`, absent (`None`) when no artwork exists. -/
structure PanelData where
  image_path : Option String
deriving Repr, DecidableEq

/-- A drawing operation performed on the page image.  `pasteImage` is
`page.paste(...)` of the resized panel, `borderRect` is the
`draw.rectangle(..., outline="black")` border.  `placeholderFill` is a
placeholder fill drawn inside a panel rectangle; it is declared so the claim
that failed panels are rendered as placeholders can be stated. -/
inductive DrawOp where
  | pasteImage (path : String) (x y w h : Int)
  | borderRect (x y w h : Int)
  | placeholderFill (x y w h : Int)
deriving Repr, DecidableEq

/-- `ComicLayoutTool._place_panel` as the list of drawing operations it
performs.  A missing (`None`) or empty (falsy) `image_path` returns early,
drawing nothing.  `loadOk path` models whether `Image.open`/`resize`/`paste`
succeeds for that path; on failure the exception is caught, a warning is
logged, and nothing is drawn. -/
def placePanel (loadOk : String → Bool) (panelData : PanelData)
    (pos : PanelPosition) : List DrawOp :=
  match panelData.image_path with
  | none => []
  | some path =>
    if path = "" then []
    else if loadOk path then
      [DrawOp.pasteImage path pos.x pos.y pos.width pos.height,
       DrawOp.borderRect pos.x pos.y pos.width pos.height]
    else []

/-- The panel-placement loop of `ComicLayoutTool._run`:
`for panel_data, position in zip(panels, panel_positions): self._place_panel(...)`. -/
def composePage (loadOk : String → Bool) (panels : List PanelData)
    (positions : List PanelPosition) : List DrawOp :=
  (panels.zip positions).flatMap (fun pp => placePanel loadOk pp.1 pp.2)

/-- Whether `_place_panel` reaches the paste for a panel: a present, non-empty
path whose image loads. -/
def panelLoads (loadOk : String → Bool) (panelData : PanelData) : Bool :=
  match panelData.image_path with
  | none => false
  | some path => !(path == "") && loadOk path

/-- Recognizer for panel border rectangles among drawing operations. -/
def isBorderRect : DrawOp → Bool
  | DrawOp.borderRect _ _ _ _ => true
  | _ => false

/-- Recognizer for placeholder fills among drawing operations. -/
def isPlaceholderFill : DrawOp → Bool
  | DrawOp.placeholderFill _ _ _ _ => true
  | _ => false

/-- Load oracle for the counterexample: every artwork loads except the third
panel's. -/
def failThirdLoad : String → Bool := fun path => path != "panel3.png"

/-- Five panels, the third of which will fail to load. -/
def fivePanels : List PanelData :=
  [{ image_path := some "panel1.png" }, { image_path := some "panel2.png" },
   { image_path := some "panel3.png" }, { image_path := some "panel4.png" },
   { image_path := some "panel5.png" }]

/-- The grid positions computed for those five panels under the default
configuration. -/
def fivePositions : List PanelPosition :=
  (gridLayout 5 {}).toOption.getD []

/-! ## Export tools (`src/tools/export_tools.py`) -/

/-- `ExportResult` from `export_tools.py`. -/
structure ExportResult where
  format : String
  output_path : String
  file_size : Nat
  page_count : Nat
deriving Repr, DecidableEq

/-- Split a character list at the last occurrence of `sep`, returning the
parts before and after it, or `none` when `sep` does not occur. -/
def splitLastOn (sep : Char) : List Char → Option (List Char × List Char)
  | [] => none
  | c :: cs =>
    match splitLastOn sep cs with
    | some pr => some (c :: pr.1, pr.2)
    | none => if c = sep then some ([], cs) else none

/-- ASCII lower-casing of one character. -/
def lowerChar (c : Char) : Char :=
  if 'A' ≤ c ∧ c ≤ 'Z' then Char.ofNat (c.toNat + 32) else c

/-- ASCII lower-casing of a string (`str.lower()` for ASCII input). -/
def lowerString (s : String) : String :=
  String.mk (s.toList.map lowerChar)

/-- `Path.suffix` of a path string: the final component's extension including
its leading dot, empty when the name has no dot (mirrors `pathlib` for
ordinary file names). -/
def pathSuffix (p : String) : String :=
  let name :=
    match splitLastOn '/' p.toList with
    | some pr => pr.2
    | none => p.toList
  match splitLastOn '.' name with
  | some pr => String.mk ('.' :: pr.2)
  | none => ""

/-- The `.cbz` extension normalization in `CBZExportTool._run`:
`if output_file.suffix.lower() != '.cbz': output_file = output_file.with_suffix('.cbz')`
(`with_suffix` drops the old suffix and appends the new one). -/
def ensureCbz (p : String) : String :=
  if lowerString (pathSuffix p) = ".cbz" then p
  else String.mk (p.toList.take (p.toList.length - (pathSuffix p).toList.length)) ++ ".cbz"

/-- `PDFExportTool._run`.  Per-page load failures are caught and only logged,
so the result's `page_count` is always `len(pages)` and its `format` is
always `"pdf"`.  `fsOutcome` models the filesystem/renderer interaction
(directory creation, canvas save, `stat().st_size`): `Except.ok size` when
saving succeeds with that resulting file size, `Except.error` when an
exception escapes (the source logs and re-raises it). -/
def pdfExportRun (fsOutcome : Except String Nat) (pages : List String)
    (outputPath : String) (title : String) : Except String ExportResult :=
  match fsOutcome with
  | Except.error e => Except.error e
  | Except.ok size => Except.ok
      { format := "pdf", output_path := outputPath,
        file_size := size, page_count := pages.length }

/-- `CBZExportTool._run`.  Per-page archive failures are caught and only
logged; the result's `page_count` is always `len(pages)` and its `format`
always `"cbz"`; the output path is normalized to a `.cbz` extension. -/
def cbzExportRun (fsOutcome : Except String Nat) (pages : List String)
    (outputPath : String) (title : String) : Except String ExportResult :=
  match fsOutcome with
  | Except.error e => Except.error e
  | Except.ok size => Except.ok
      { format := "cbz", output_path := ensureCbz outputPath,
        file_size := size, page_count := pages.length }

/-- `WebExportTool._run`.  Pages that fail to process are skipped, so
`page_count` is the number of successfully processed pages (`len(web_pages)`,
the `processedPages` parameter). -/
def webExportRun (fsOutcome : Except String Nat) (processedPages : List String)
    (outputDir : String) (title : String) : Except String ExportResult :=
  match fsOutcome with
  | Except.error e => Except.error e
  | Except.ok size => Except.ok
      { format := "web", output_path := outputDir ++ "/index.html",
        file_size := size, page_count := processedPages.length }

/-- One iteration of the `ExportManager.export_all` loop: the entries the
iteration for format name `fmt` adds to the results dict.  A recognized name
calls the corresponding tool's `_run`, whose outcome (returned result, or
raised exception that `export_all` catches and merely logs) is the respective
parameter; a failed call adds no entry; an unrecognized name matches no
branch and adds no entry. -/
def exportStep (pdfOutcome cbzOutcome webOutcome : Except String ExportResult)
    (fmt : String) : List (String × ExportResult) :=
  if fmt = "pdf" then
    match pdfOutcome with
    | Except.ok r => [("pdf", r)]
    | Except.error _ => []
  else if fmt = "cbz" then
    match cbzOutcome with
    | Except.ok r => [("cbz", r)]
    | Except.error _ => []
  else if fmt = "web" then
    match webOutcome with
    | Except.ok r => [("web", r)]
    | Except.error _ => []
  else []

/-- `ExportManager.export_all`: iterate `exportStep` over the requested
format names, accumulating the per-format results in iteration order. -/
def exportAll (pdfOutcome cbzOutcome webOutcome : Except String ExportResult)
    (formats : List String) : List (String × ExportResult) :=
  match formats with
  | [] => []
  | fmt :: rest =>
    exportStep pdfOutcome cbzOutcome webOutcome fmt ++
      exportAll pdfOutcome cbzOutcome webOutcome rest

/-- The export outcome `export_all` consults for a format name; `none` for
unrecognized names. -/
def formatOutcome (pdfOutcome cbzOutcome webOutcome : Except String ExportResult)
    (fmt : String) : Option (Except String ExportResult) :=
  if fmt = "pdf" then some pdfOutcome
  else if fmt = "cbz" then some cbzOutcome
  else if fmt = "web" then some webOutcome
  else none

/-- A successful CBZ export result used in the `export_all` counterexample. -/
def cbzOkResult : ExportResult :=
  { format := "cbz", output_path := "/out/Comic.cbz",
    file_size := 2048, page_count := 3 }

/-- Concrete export results for the idempotence witness. -/
def pdfResA : ExportResult :=
  { format := "pdf", output_path := "/out/a.pdf", file_size := 9001, page_count := 2 }

/-- Second PDF run's result for the idempotence witness. -/
def pdfResB : ExportResult :=
  { format := "pdf", output_path := "/out/b.pdf", file_size := 9002, page_count := 2 }

/-- First CBZ run's result for the idempotence witness. -/
def cbzResC : ExportResult :=
  { format := "cbz", output_path := "/out/c.cbz", file_size := 77, page_count := 2 }

/-- Second CBZ run's result for the idempotence witness. -/
def cbzResD : ExportResult :=
  { format := "cbz", output_path := "/out/d.cbz", file_size := 78, page_count := 2 }

/-! ## Image generation tool (`src/tools/image_tools.py`) -/

/-- `ImageGenerationResult` from `image_tools.py`. -/
structure ImageGenerationResult where
  image_url : String
  prompt : String
  model : String
  width : Int
  height : Int
deriving Repr, DecidableEq

/-- The fields of the ModelsLab API response dict that
`ModelsLabImageTool._run` reads. -/
structure MLResponse where
  status : String
  output : List String
  id : Option String
  message : Option String
deriving Repr, DecidableEq

/-- The prompt enhancement at the top of `ModelsLabImageTool._run`:
`enhanced_prompt = f"{prompt}, {style} style"` when `style` is truthy
(present and non-empty), the bare prompt otherwise. -/
def enhancePrompt (prompt : String) (style : Option String) : String :=
  match style with
  | some s => if s = "" then prompt else prompt ++ ", " ++ s ++ " style"
  | none => prompt

/-- The interpolation `f"processing:{response.get('id')}"` renders a missing
id as Python's `None`. -/
def responseIdStr (resp : MLResponse) : String :=
  match resp.id with
  | some i => i
  | none => "None"

/-- The result `_run` builds when the service answers `"processing"`: the
pending request id embedded in the `image_url` field as a sentinel. -/
def pendingSentinel (resp : MLResponse) (prompt : String) (style : Option String)
    (model : String) (width height : Int) : ImageGenerationResult :=
  { image_url := "processing:" ++ responseIdStr resp
    prompt := enhancePrompt prompt style
    model := model, width := width, height := height }

/-- The response handling of `ModelsLabImageTool._run` (the
`# Handle response` block): on `"success"` the first output URL becomes the
artwork (an empty `output` list makes `response["output"][0]` raise
`IndexError`); on `"processing"` the tool logs a warning and returns the
pending sentinel result — it performs no polling, retry, or backoff; any
other status raises `ModelsLab API error`. -/
def imageToolRun (resp : MLResponse) (prompt : String) (style : Option String)
    (model : String) (width height : Int) :
    Except String ImageGenerationResult :=
  if resp.status = "success" then
    match resp.output with
    | [] => Except.error "IndexError: list index out of range"
    | url :: _ => Except.ok
        { image_url := url, prompt := enhancePrompt prompt style
          model := model, width := width, height := height }
  else if resp.status = "processing" then
    Except.ok (pendingSentinel resp prompt style model width height)
  else
    Except.error ("ModelsLab API error: " ++ resp.message.getD "Unknown error")

/-- A "processing" response from the image service, used in the C6
counterexample. -/
def pendingResp : MLResponse :=
  { status := "processing", output := [], id := some "req-42", message := none }

/-! ## Job record and background task (`src/api/main.py`) -/

/-- The result summary stored on completion:
`{"title", "total_pages", "format", "file_path"}`. -/
structure JobResult where
  title : String
  total_pages : Nat
  format : String
  file_path : Option String
deriving Repr, DecidableEq

/-- The mutable job record kept in the in-memory `jobs` dict.  Python's float
`progress` values (0.0, 0.1, 0.3, 0.6, 1.0) are modelled as rationals. -/
structure JobState where
  job_id : String
  status : String
  progress : ℚ
  current_stage : String
  message : String
  result : Option JobResult
deriving Repr, DecidableEq

/-- The job record `generate_comic` creates when queueing a job. -/
def initialJob (jobId : String) : JobState :=
  { job_id := jobId, status := "queued", progress := 0
    current_stage := "Queued", message := "Comic generation queued"
    result := none }

/-- How the body of `generate_comic_task` can turn out: constructing
`ComicBookGenerator` can raise, the generation call can raise, or generation
returns a comic whose summary is stored; all other statements are plain
field assignments that cannot raise. -/
inductive GenOutcome where
  | ctorFail (msg : String)
  | generateFail (msg : String)
  | success (result : JobResult)
deriving Repr, DecidableEq

/-- The successive states of the job record from creation through
`generate_comic_task`: one state per field assignment to `jobs[job_id]`, in
program order.  An exception (from generator construction, raised after
`progress = 0.1`, or from the generation call, raised after
`progress = 0.6`) jumps to the `except` clause, which sets
`status = "failed"` and then the message. -/
def jobTrace (jobId : String) (outcome : GenOutcome) : List JobState :=
  let s0 := initialJob jobId
  let s1 := { s0 with status := "processing" }
  let s2 := { s1 with current_stage := "Initializing" }
  let s3 := { s2 with progress := 1/10 }
  match outcome with
  | GenOutcome.ctorFail m =>
      [s0, s1, s2, s3,
       { s3 with status := "failed" },
       { s3 with status := "failed", message := m }]
  | GenOutcome.generateFail m =>
      let s4 := { s3 with current_stage := "Generating content" }
      let s5 := { s4 with progress := 3/10 }
      let s6 := { s5 with current_stage := "Generating artwork" }
      let s7 := { s6 with progress := 6/10 }
      [s0, s1, s2, s3, s4, s5, s6, s7,
       { s7 with status := "failed" },
       { s7 with status := "failed", message := m }]
  | GenOutcome.success r =>
      let s4 := { s3 with current_stage := "Generating content" }
      let s5 := { s4 with progress := 3/10 }
      let s6 := { s5 with current_stage := "Generating artwork" }
      let s7 := { s6 with progress := 6/10 }
      let s8 := { s7 with status := "completed" }
      let s9 := { s8 with current_stage := "Complete" }
      let s10 := { s9 with progress := 1 }
      [s0, s1, s2, s3, s4, s5, s6, s7, s8, s9, s10,
       { s10 with result := some r }]

/-- The transitions of the job status state machine:
`queued → processing → {completed | failed}` (staying put is allowed). -/
def statusStep (a b : String) : Prop :=
  b = a ∨ (a = "queued" ∧ b = "processing") ∨
    (a = "processing" ∧ (b = "completed" ∨ b = "failed"))

/-! ## Visual stage fan-out (`src/main.py`, `ComicBookGenerator`) -/

/-- The fields of `schemas.Panel` the visual stage reads. -/
structure Panel where
  panel_number : Nat
  page_number : Nat
  description : String
  mood : String
  camera_angle : String
deriving Repr, DecidableEq

/-- One per-panel input dict built in `ComicBookGenerator.generate_from_pdf`
(the `panel_inputs` list comprehension): the panel's own fields plus the
shared context threaded from the script and options. -/
structure PanelInput where
  panel_number : Nat
  page_number : Nat
  description : String
  mood : String
  camera_angle : String
  art_style : String
  color_palette : List String
  characters : List String
  story_summary : String
deriving Repr, DecidableEq

/-- The `panel_inputs` entry built for one panel. -/
def panelInput (artStyle : String) (palette characters : List String)
    (summary : String) (p : Panel) : PanelInput :=
  { panel_number := p.panel_number, page_number := p.page_number
    description := p.description, mood := p.mood
    camera_angle := p.camera_angle, art_style := artStyle
    color_palette := palette, characters := characters
    story_summary := summary }

/-- The fields of `schemas.PanelArtwork` relevant to ordering. -/
structure PanelArtwork where
  panel_number : Nat
  page_number : Nat
  prompt : String
  image_url : String
deriving Repr, DecidableEq

/-- Modelled from the spec: deterministic fan-in reassembly.  The fan-out and
reassembly live in `crewai`'s `kickoff_for_each`, an external library call
whose code is not in this repository; per the spec, results are reassembled
into original input order regardless of completion order ("dispatch of
independent concurrent requests (one per panel) followed by deterministic
reassembly into original order").  `results` pairs each completed task's
input index with its result, listed in completion order; reassembly reads
them back by input position. -/
def reassembleInOrder {α : Type} (n : Nat) (results : List (Nat × α)) :
    List α :=
  (List.range n).filterMap (fun i => results.lookup i)

/-- Modelled from the spec: `kickoff_for_each` dispatches one independent
generation per input; `completions` lists the (input index, input) pairs in
the order the tasks happen to complete, and the per-task work is `gen`.  The
returned artworks are reassembled in input order. -/
def kickoffForEach (gen : PanelInput → PanelArtwork)
    (inputs : List PanelInput) (completions : List (Nat × PanelInput)) :
    List PanelArtwork :=
  reassembleInOrder inputs.length (completions.map (fun c => (c.1, gen c.2)))

/-- Stage 3 of `ComicBookGenerator.generate_from_pdf`: build one input per
script panel, in script order, then fan out over them. -/
def visualStage (gen : PanelInput → PanelArtwork) (artStyle : String)
    (palette characters : List String) (summary : String)
    (panels : List Panel) (completions : List (Nat × PanelInput)) :
    List PanelArtwork :=
  kickoffForEach gen (panels.map (panelInput artStyle palette characters summary))
    completions

/-- A mock generation function for the fan-out witness; it echoes the
input's panel and page numbers. -/
def mockGen (inp : PanelInput) : PanelArtwork :=
  { panel_number := inp.panel_number, page_number := inp.page_number
    prompt := inp.description
    image_url := "mock://" ++ inp.description }

/-- Three script panels for the fan-out witness. -/
def mockPanels : List Panel :=
  [{ panel_number := 1, page_number := 1, description := "dawn"
     mood := "calm", camera_angle := "wide" },
   { panel_number := 2, page_number := 1, description := "storm"
     mood := "tense", camera_angle := "medium" },
   { panel_number := 3, page_number := 2, description := "rescue"
     mood := "hopeful", camera_angle := "close-up" }]

/-- A completion order for the witness in which the tasks finish in reverse
dispatch order. -/
def mockCompletions : List (Nat × PanelInput) :=
  ((mockPanels.map (panelInput "cartoon" ["#101010"] ["Robin"] "a storm rescue")).enum).reverse

end ComicX

namespace ComicX

/-! ## Theorems about the grid layout -/

lemma gridCols_pos (n : Nat) : 0 < gridCols n := by
  unfold gridCols; split <;> omega

lemma gridCols_of_gt {n : Nat} (h : 1 < n) : gridCols n = 2 := by
  unfold gridCols; simp [h]

lemma gridRows_pos {n : Nat} (hn : 1 ≤ n) : 0 < gridRows n := by
  unfold gridRows gridCols; split <;> omega

lemma gridLayout_eq_ok {n : Nat} (hn : 1 ≤ n) (config : LayoutConfig) :
    gridLayout n config = Except.ok (gridPositions n config) := by
  unfold gridLayout
  have := gridRows_pos hn
  simp [Nat.pos_iff_ne_zero.mp this]

lemma gridPositions_length (n : Nat) (config : LayoutConfig) :
    (gridPositions n config).length = n := by
  simp [gridPositions]

lemma gridPositions_getElem? {n i : Nat} (hi : i < n) (config : LayoutConfig) :
    (gridPositions n config)[i]? = some
      { x := config.margin +
          ((i % gridCols n : Nat) : Int) * (panelWidth n config + config.gutter)
        y := config.margin +
          ((i / gridCols n : Nat) : Int) * (panelHeight n config + config.gutter)
        width := panelWidth n config
        height := panelHeight n config } := by
  unfold gridPositions
  rw [List.getElem?_map, List.getElem?_range hi]
  rfl

lemma le_cols_mul_rows (n : Nat) : n ≤ gridCols n * gridRows n := by
  unfold gridRows gridCols; split <;> omega

lemma index_row_lt {n i : Nat} (hi : i < n) : i / gridCols n < gridRows n := by
  rw [Nat.div_lt_iff_lt_mul (gridCols_pos n), Nat.mul_comm]
  exact Nat.lt_of_lt_of_le hi (le_cols_mul_rows n)

lemma panelWidth_nonneg {n : Nat} {config : LayoutConfig}
    (h : 0 ≤ availableWidth n config) : 0 ≤ panelWidth n config :=
  Int.fdiv_nonneg h (Int.ofNat_nonneg _)

lemma panelHeight_nonneg {n : Nat} {config : LayoutConfig}
    (h : 0 ≤ availableHeight n config) : 0 ≤ panelHeight n config :=
  Int.fdiv_nonneg h (Int.ofNat_nonneg _)

lemma cols_mul_panelWidth_le (n : Nat) (config : LayoutConfig) :
    (gridCols n : Int) * panelWidth n config ≤ availableWidth n config := by
  unfold panelWidth
  rw [Int.fdiv_eq_ediv _ (Int.ofNat_nonneg _)]
  have hc : ((gridCols n : Nat) : Int) ≠ 0 := by
    have := gridCols_pos n; omega
  have h1 := Int.ediv_add_emod (availableWidth n config) (gridCols n)
  have h2 := Int.emod_nonneg (availableWidth n config) hc
  linarith

lemma rows_mul_panelHeight_le {n : Nat} (hn : 1 ≤ n) (config : LayoutConfig) :
    (gridRows n : Int) * panelHeight n config ≤ availableHeight n config := by
  unfold panelHeight
  rw [Int.fdiv_eq_ediv _ (Int.ofNat_nonneg _)]
  have hc : ((gridRows n : Nat) : Int) ≠ 0 := by
    have := gridRows_pos hn; omega
  have h1 := Int.ediv_add_emod (availableHeight n config) (gridRows n)
  have h2 := Int.emod_nonneg (availableHeight n config) hc
  linarith

/-- C2: for `n ≥ 1` panels the grid layout uses `cols = 2` when `n > 1` and
`1` otherwise, `rows` is the least row count with `n ≤ cols * rows` (that is,
`ceil (n / cols)`), each panel `i` (in reading order) occupies grid cell
`(row = i / cols, col = i % cols)` with all cells sharing the evenly divided
width `availableWidth / cols` and height `availableHeight / rows`, and the
returned list has exactly `n` entries, so trailing cells hold no panel. -/
theorem grid_layout_reading_order (n : Nat) (config : LayoutConfig)
    (hn : 1 ≤ n) :
    gridLayout n config = Except.ok (gridPositions n config) ∧
    (gridPositions n config).length = n ∧
    gridCols n = (if 1 < n then 2 else 1) ∧
    n ≤ gridCols n * gridRows n ∧
    gridCols n * (gridRows n - 1) < n ∧
    (∀ i, i < n → (gridPositions n config)[i]? = some
      { x := config.margin +
          ((i % gridCols n : Nat) : Int) * (panelWidth n config + config.gutter)
        y := config.margin +
          ((i / gridCols n : Nat) : Int) * (panelHeight n config + config.gutter)
        width := panelWidth n config
        height := panelHeight n config }) := by
  refine ⟨gridLayout_eq_ok hn config, gridPositions_length n config, ?_, ?_, ?_, ?_⟩
  · unfold gridCols; rfl
  · unfold gridRows gridCols; split <;> omega
  · unfold gridRows gridCols; split <;> omega
  · intro i hi
    exact gridPositions_getElem? hi config

/-- Witness for `grid_layout_reading_order` at `n = 5` and the default
configuration. -/
theorem grid_layout_reading_order_witness :
    (1 ≤ 5) ∧
    (gridLayout 5 {} = Except.ok (gridPositions 5 {}) ∧
     (gridPositions 5 {}).length = 5 ∧
     gridCols 5 = (if 1 < 5 then 2 else 1) ∧
     5 ≤ gridCols 5 * gridRows 5 ∧
     gridCols 5 * (gridRows 5 - 1) < 5 ∧
     (∀ i, i < 5 → (gridPositions 5 {})[i]? = some
       { x := LayoutConfig.margin {} +
           ((i % gridCols 5 : Nat) : Int) * (panelWidth 5 {} + LayoutConfig.gutter {})
         y := LayoutConfig.margin {} +
           ((i / gridCols 5 : Nat) : Int) * (panelHeight 5 {} + LayoutConfig.gutter {})
         width := panelWidth 5 {}
         height := panelHeight 5 {} })) :=
  ⟨by decide, grid_layout_reading_order 5 {} (by decide)⟩

/-- C10: calling the layout tool with an empty panel list computes `rows = 0`
and the per-panel height computation divides by zero, so the tool raises
rather than returning an empty position list. -/
theorem grid_layout_zero_panels_raises (config : LayoutConfig) :
    gridRows 0 = 0 ∧
    gridLayout 0 config =
      Except.error "ZeroDivisionError: integer division or modulo by zero" := by
  constructor
  · rfl
  · rfl

/-- C9: the "dynamic" and "traditional" layout policies and any unrecognized
layout style compute exactly the same positions as the "grid" policy. -/
theorem all_layout_styles_equal_grid (numPanels : Nat) (style : String)
    (config : LayoutConfig) :
    dynamicLayout numPanels config = gridLayout numPanels config ∧
    traditionalLayout numPanels config = gridLayout numPanels config ∧
    calculatePositions numPanels style config = gridLayout numPanels config := by
  refine ⟨rfl, rfl, ?_⟩
  unfold calculatePositions dynamicLayout traditionalLayout
  split <;> try rfl
  split <;> try rfl
  split <;> rfl

/-- C1 counterexample: with panel count `2` and the configuration
`page_width = page_height = 100`, `margin = 60`, `gutter = 10` — all four
parameters positive — the second computed rectangle starts at `x = 55`,
left of the `margin = 60` interior boundary, so not every rectangle lies
within the page interior. -/
theorem grid_layout_bounds_cx :
    (0 < tightConfig.page_width ∧ 0 < tightConfig.page_height ∧
     0 < tightConfig.margin ∧ 0 < tightConfig.gutter) ∧
    ¬ (∀ p ∈ (gridLayout 2 tightConfig).toOption.getD [],
        withinPage tightConfig p) := by
  decide

/-- C1 amended: for every panel count `n ≥ 1` and every configuration with
positive page dimensions, margin and gutter in which the interior area left
after margins and gutters is nonnegative in both axes, every rectangle
computed by the grid layout lies fully within the page interior (nonnegative
extent, at least `margin` from every edge) and no two rectangles overlap. -/
theorem grid_layout_within_bounds (n : Nat) (config : LayoutConfig)
    (hn : 1 ≤ n)
    (hW : 0 < config.page_width) (hH : 0 < config.page_height)
    (hm : 0 < config.margin) (hg : 0 < config.gutter)
    (hAw : 0 ≤ availableWidth n config) (hAh : 0 ≤ availableHeight n config) :
    gridLayout n config = Except.ok (gridPositions n config) ∧
    (∀ p ∈ gridPositions n config, withinPage config p) ∧
    (gridPositions n config).Pairwise disjointRect := by
  have hpw : 0 ≤ panelWidth n config := panelWidth_nonneg hAw
  have hph : 0 ≤ panelHeight n config := panelHeight_nonneg hAh
  have hcw := cols_mul_panelWidth_le n config
  have hrh := rows_mul_panelHeight_le hn config
  have hAwdef : availableWidth n config =
      config.page_width - 2 * config.margin -
        ((gridCols n : Int) - 1) * config.gutter := rfl
  have hAhdef : availableHeight n config =
      config.page_height - 2 * config.margin -
        ((gridRows n : Int) - 1) * config.gutter := rfl
  rw [hAwdef] at hcw hAw
  rw [hAhdef] at hrh hAh
  refine ⟨gridLayout_eq_ok hn config, ?_, ?_⟩
  · intro p hp
    rw [gridPositions, List.mem_map] at hp
    obtain ⟨i, hi, rfl⟩ := hp
    rw [List.mem_range] at hi
    have hcol : ((i % gridCols n : Nat) : Int) ≤ (gridCols n : Int) - 1 := by
      have := Nat.mod_lt i (gridCols_pos n)
      omega
    have hrow : ((i / gridCols n : Nat) : Int) ≤ (gridRows n : Int) - 1 := by
      have := index_row_lt hi
      omega
    have hcolnn : (0 : Int) ≤ ((i % gridCols n : Nat) : Int) := Int.ofNat_nonneg _
    have hrownn : (0 : Int) ≤ ((i / gridCols n : Nat) : Int) := Int.ofNat_nonneg _
    have hx2 : ((i % gridCols n : Nat) : Int) * (panelWidth n config + config.gutter) ≤
        ((gridCols n : Int) - 1) * (panelWidth n config + config.gutter) :=
      mul_le_mul_of_nonneg_right hcol (by linarith)
    have hy2 : ((i / gridCols n : Nat) : Int) * (panelHeight n config + config.gutter) ≤
        ((gridRows n : Int) - 1) * (panelHeight n config + config.gutter) :=
      mul_le_mul_of_nonneg_right hrow (by linarith)
    have hxnn : (0 : Int) ≤
        ((i % gridCols n : Nat) : Int) * (panelWidth n config + config.gutter) :=
      mul_nonneg hcolnn (by linarith)
    have hynn : (0 : Int) ≤
        ((i / gridCols n : Nat) : Int) * (panelHeight n config + config.gutter) :=
      mul_nonneg hrownn (by linarith)
    refine ⟨hpw, hph, by dsimp only; linarith, by dsimp only; linarith, ?_, ?_⟩
    · dsimp only
      ring_nf at hx2 hcw ⊢
      linarith
    · dsimp only
      ring_nf at hy2 hrh ⊢
      linarith
  · rw [gridPositions]
    refine List.Pairwise.map _ ?_ (List.pairwise_lt_range n)
    intro i j hij
    have hrij : i / gridCols n ≤ j / gridCols n :=
      Nat.div_le_div_right (Nat.le_of_lt hij)
    rcases Nat.lt_or_ge (i / gridCols n) (j / gridCols n) with hlt | hge
    · -- different rows: vertical separation
      have h1 : ((i / gridCols n : Nat) : Int) + 1 ≤ ((j / gridCols n : Nat) : Int) := by
        omega
      have h2 : (((i / gridCols n : Nat) : Int) + 1) * (panelHeight n config + config.gutter) ≤
          ((j / gridCols n : Nat) : Int) * (panelHeight n config + config.gutter) :=
        mul_le_mul_of_nonneg_right h1 (by linarith)
      refine Or.inr (Or.inr (Or.inl ?_))
      dsimp only
      ring_nf at h2 ⊢
      linarith
    · -- same row: columns differ, horizontal separation
      have heq : i / gridCols n = j / gridCols n := Nat.le_antisymm hrij hge
      have hc2 : gridCols n = 1 ∨ gridCols n = 2 := by
        unfold gridCols; split
        · exact Or.inr rfl
        · exact Or.inl rfl
      rcases hc2 with hc | hc
      · exfalso
        rw [hc] at heq
        simp only [Nat.div_one] at heq
        omega
      · have hmods : i % gridCols n = 0 ∧ j % gridCols n = 1 := by
          rw [hc] at heq ⊢
          omega
        refine Or.inl ?_
        dsimp only
        rw [hmods.1, hmods.2]
        push_cast
        linarith

lemma countP_placePanel_border (loadOk : String → Bool) (panelData : PanelData)
    (pos : PanelPosition) :
    (placePanel loadOk panelData pos).countP isBorderRect =
      if panelLoads loadOk panelData then 1 else 0 := by
  unfold placePanel panelLoads
  cases panelData.image_path with
  | none => simp
  | some path =>
    by_cases hp : path = ""
    · simp [hp]
    · by_cases hl : loadOk path <;>
        simp [hp, hl, List.countP_cons, isBorderRect]

lemma countP_placePanel_placeholder (loadOk : String → Bool)
    (panelData : PanelData) (pos : PanelPosition) :
    (placePanel loadOk panelData pos).countP isPlaceholderFill = 0 := by
  unfold placePanel
  cases panelData.image_path with
  | none => simp
  | some path =>
    by_cases hp : path = ""
    · simp [hp]
    · by_cases hl : loadOk path <;>
        simp [hp, hl, List.countP_cons, isPlaceholderFill]

/-- C3 counterexample: five panels with the third failing to load, placed at
the grid positions for five panels under the default configuration.  The
composed page contains only 4 panel border rectangles, not 5, and no
placeholder fill is drawn for the failed panel. -/
theorem place_panel_placeholder_cx :
    (composePage failThirdLoad fivePanels fivePositions).countP isBorderRect = 4 ∧
    ¬ ((composePage failThirdLoad fivePanels fivePositions).countP isBorderRect = 5) ∧
    (composePage failThirdLoad fivePanels fivePositions).countP isPlaceholderFill = 0 := by
  decide

/-- C3 amended: when a panel's artwork is missing or cannot be loaded, page
composition draws nothing inside that panel's rectangle — no placeholder fill
and no outline — so a page with `n` panels contains exactly one border
rectangle per successfully loaded panel and no placeholder fills; failed
panels are skipped entirely. -/
theorem compose_page_skips_failed_panels (loadOk : String → Bool)
    (panels : List PanelData) (positions : List PanelPosition)
    (h : panels.length = positions.length) :
    (composePage loadOk panels positions).countP isBorderRect =
      panels.countP (panelLoads loadOk) ∧
    (composePage loadOk panels positions).countP isPlaceholderFill = 0 ∧
    (∀ panelData pos, panelLoads loadOk panelData = false →
      placePanel loadOk panelData pos = []) := by
  refine ⟨?_, ?_, ?_⟩
  · unfold composePage
    induction panels generalizing positions with
    | nil => simp
    | cons pd rest ih =>
      cases positions with
      | nil => simp at h
      | cons pos prest =>
        simp only [List.zip_cons_cons, List.flatMap_cons, List.countP_append,
          List.countP_cons]
        rw [ih prest (by simpa using h)]
        rw [countP_placePanel_border]
        by_cases hl : panelLoads loadOk pd
        · simp [hl]; omega
        · simp [hl]
  · unfold composePage
    induction panels generalizing positions with
    | nil => simp
    | cons pd rest ih =>
      cases positions with
      | nil => simp at h
      | cons pos prest =>
        simp only [List.zip_cons_cons, List.flatMap_cons, List.countP_append]
        rw [ih prest (by simpa using h)]
        rw [countP_placePanel_placeholder]
  · intro panelData pos hfail
    unfold placePanel
    unfold panelLoads at hfail
    cases hpath : panelData.image_path with
    | none => rfl
    | some path =>
      rw [hpath] at hfail
      by_cases hp : path = ""
      · simp [hp]
      · simp only [Bool.and_eq_false_iff, Bool.not_eq_false'] at hfail
        rcases hfail with hfail | hfail
        · exact absurd (by simpa using hfail) hp
        · simp [hp, hfail]

/-- Witness for `compose_page_skips_failed_panels` on the five-panel
counterexample page: four of five panels load, so four border rectangles and
zero placeholder fills are drawn. -/
theorem compose_page_skips_failed_panels_witness :
    fivePanels.length = fivePositions.length ∧
    ((composePage failThirdLoad fivePanels fivePositions).countP isBorderRect =
      fivePanels.countP (panelLoads failThirdLoad) ∧
    (composePage failThirdLoad fivePanels fivePositions).countP isPlaceholderFill = 0 ∧
    (∀ panelData pos, panelLoads failThirdLoad panelData = false →
      placePanel failThirdLoad panelData pos = [])) :=
  ⟨by decide,
   compose_page_skips_failed_panels failThirdLoad fivePanels fivePositions (by decide)⟩

/-- Witness for `grid_layout_within_bounds` at `n = 4` and the default
configuration (1200 × 1600 page, margin 50, gutter 20). -/
theorem grid_layout_within_bounds_witness :
    ((1 ≤ 4) ∧ 0 < LayoutConfig.page_width {} ∧ 0 < LayoutConfig.page_height {} ∧
     0 < LayoutConfig.margin {} ∧ 0 < LayoutConfig.gutter {} ∧
     0 ≤ availableWidth 4 {} ∧ 0 ≤ availableHeight 4 {}) ∧
    (gridLayout 4 {} = Except.ok (gridPositions 4 {}) ∧
     (∀ p ∈ gridPositions 4 {}, withinPage {} p) ∧
     (gridPositions 4 {}).Pairwise disjointRect) :=
  ⟨⟨by decide, by decide, by decide, by decide, by decide, by decide, by decide⟩,
   grid_layout_within_bounds 4 {} (by decide) (by decide) (by decide) (by decide)
     (by decide) (by decide) (by decide)⟩

/-! ## Export theorems -/

/-- C4 counterexample: requesting formats `["pdf", "cbz"]` with the PDF
export raising and the CBZ export succeeding, the returned map has no entry
for the failed `pdf` format — only the successful `cbz` entry — contradicting
the claim that the map includes an entry for each failed format. -/
theorem export_all_failed_entry_cx :
    (exportAll (Except.error "disk full") (Except.ok cbzOkResult)
      (Except.error "unused") ["pdf", "cbz"]).lookup "pdf" = none ∧
    (exportAll (Except.error "disk full") (Except.ok cbzOkResult)
      (Except.error "unused") ["pdf", "cbz"]).lookup "cbz" = some cbzOkResult := by
  decide

lemma exportStep_lookup (pdfOutcome cbzOutcome webOutcome :
    Except String ExportResult) (f fmt : String) :
    (exportStep pdfOutcome cbzOutcome webOutcome f).lookup fmt =
      if fmt = f then
        (formatOutcome pdfOutcome cbzOutcome webOutcome f).bind Except.toOption
      else none := by
  unfold exportStep formatOutcome
  by_cases h1 : f = "pdf"
  · subst h1
    cases pdfOutcome with
    | error e => by_cases hf : fmt = "pdf" <;> simp_all [List.lookup, Except.toOption]
    | ok r =>
      by_cases hf : fmt = "pdf"
      · simp_all [List.lookup, Except.toOption]
      · simp_all [List.lookup, Except.toOption]
        split <;> simp_all
  · by_cases h2 : f = "cbz"
    · subst h2
      cases cbzOutcome with
      | error e => by_cases hf : fmt = "cbz" <;> simp_all [List.lookup, Except.toOption]
      | ok r =>
        by_cases hf : fmt = "cbz"
        · simp_all [List.lookup, Except.toOption]
        · simp_all [List.lookup, Except.toOption]
          split <;> simp_all
    · by_cases h3 : f = "web"
      · subst h3
        cases webOutcome with
        | error e => by_cases hf : fmt = "web" <;> simp_all [List.lookup, Except.toOption]
        | ok r =>
          by_cases hf : fmt = "web"
          · simp_all [List.lookup, Except.toOption]
          · simp_all [List.lookup, Except.toOption]
            split <;> simp_all
      · simp [h1, h2, h3]

/-- C4 amended: a failure exporting one format does not prevent the other
formats from being attempted and succeeding — each requested format's entry
is determined solely by that format's own export outcome — but the returned
map contains entries only for the formats that succeeded: failed formats
(and unrecognized format names) are absent. -/
theorem export_all_per_format (pdfOutcome cbzOutcome webOutcome :
    Except String ExportResult) (formats : List String) (fmt : String) :
    (exportAll pdfOutcome cbzOutcome webOutcome formats).lookup fmt =
      if fmt ∈ formats then
        (formatOutcome pdfOutcome cbzOutcome webOutcome fmt).bind Except.toOption
      else none := by
  induction formats with
  | nil => simp [exportAll]
  | cons f rest ih =>
    have hstep : exportAll pdfOutcome cbzOutcome webOutcome (f :: rest) =
        exportStep pdfOutcome cbzOutcome webOutcome f ++
          exportAll pdfOutcome cbzOutcome webOutcome rest := rfl
    rw [hstep, List.lookup_append, ih,
      exportStep_lookup pdfOutcome cbzOutcome webOutcome f fmt]
    by_cases hf : fmt = f
    · subst hf
      simp only [if_pos rfl, List.mem_cons, true_or, if_pos]
      by_cases hr : fmt ∈ rest
      · rw [if_pos hr, Option.or_self]
      · rw [if_neg hr, Option.or_none]
    · rw [if_neg hf, Option.none_or]
      by_cases hr : fmt ∈ rest
      · rw [if_pos hr, if_pos (List.mem_cons_of_mem f hr)]
      · rw [if_neg hr, if_neg (by simp [List.mem_cons, hf, hr])]

/-- C8: exporting the same page list and title twice in the same format
yields results with identical `page_count` (always the input page count) and
identical `format` identifier, for both the PDF and the CBZ exporters,
whatever the filesystem outcomes and output paths of the two runs. -/
theorem export_idempotent_fields (pages : List String)
    (outA outB outC outD title : String) (fs1 fs2 fs3 fs4 : Except String Nat)
    (r1 r2 r3 r4 : ExportResult)
    (h1 : pdfExportRun fs1 pages outA title = Except.ok r1)
    (h2 : pdfExportRun fs2 pages outB title = Except.ok r2)
    (h3 : cbzExportRun fs3 pages outC title = Except.ok r3)
    (h4 : cbzExportRun fs4 pages outD title = Except.ok r4) :
    (r1.page_count = r2.page_count ∧ r1.format = r2.format ∧
     r1.format = "pdf" ∧ r1.page_count = pages.length) ∧
    (r3.page_count = r4.page_count ∧ r3.format = r4.format ∧
     r3.format = "cbz" ∧ r3.page_count = pages.length) := by
  cases fs1 with
  | error e => simp [pdfExportRun] at h1
  | ok s1 =>
    cases fs2 with
    | error e => simp [pdfExportRun] at h2
    | ok s2 =>
      cases fs3 with
      | error e => simp [cbzExportRun] at h3
      | ok s3 =>
        cases fs4 with
        | error e => simp [cbzExportRun] at h4
        | ok s4 =>
          simp only [pdfExportRun, cbzExportRun, Except.ok.injEq] at h1 h2 h3 h4
          subst h1; subst h2; subst h3; subst h4
          exact ⟨⟨rfl, rfl, rfl, rfl⟩, ⟨rfl, rfl, rfl, rfl⟩⟩

/-- Witness for `export_idempotent_fields`: two PDF and two CBZ runs over the
same two pages, with different output paths and file sizes. -/
theorem export_idempotent_fields_witness :
    (pdfExportRun (Except.ok 9001) ["p1.png", "p2.png"] "/out/a.pdf" "T" =
        Except.ok pdfResA ∧
     pdfExportRun (Except.ok 9002) ["p1.png", "p2.png"] "/out/b.pdf" "T" =
        Except.ok pdfResB ∧
     cbzExportRun (Except.ok 77) ["p1.png", "p2.png"] "/out/c.cbz" "T" =
        Except.ok cbzResC ∧
     cbzExportRun (Except.ok 78) ["p1.png", "p2.png"] "/out/d.cbz" "T" =
        Except.ok cbzResD) ∧
    (pdfResA.page_count = pdfResB.page_count ∧ pdfResA.format = pdfResB.format ∧
     pdfResA.format = "pdf" ∧ pdfResA.page_count = (["p1.png", "p2.png"] : List String).length) ∧
    (cbzResC.page_count = cbzResD.page_count ∧ cbzResC.format = cbzResD.format ∧
     cbzResC.format = "cbz" ∧ cbzResC.page_count = (["p1.png", "p2.png"] : List String).length) :=
  ⟨⟨rfl, rfl, by decide, by decide⟩,
   export_idempotent_fields ["p1.png", "p2.png"] "/out/a.pdf" "/out/b.pdf"
      "/out/c.cbz" "/out/d.cbz" "T" (Except.ok 9001) (Except.ok 9002)
      (Except.ok 77) (Except.ok 78) pdfResA pdfResB cbzResC cbzResD
      rfl rfl (by decide) (by decide)⟩

/-! ## Image-generation and job state-machine theorems -/

/-- C6 counterexample: on a concrete "processing" response the tool returns,
from that single call, a final artwork whose `image_url` is the pending
sentinel `processing:req-42` — no polling, re-request, or backoff happens, so
the pending state is returned as the panel's final artwork without retrying. -/
theorem image_pending_returned_cx :
    imageToolRun pendingResp "a red fox" none "flux" 1024 1024 =
      Except.ok (pendingSentinel pendingResp "a red fox" none "flux" 1024 1024) ∧
    (pendingSentinel pendingResp "a red fox" none "flux" 1024 1024).image_url =
      "processing:req-42" := by
  decide

/-- C6 amended: whenever the image-generation service reports "processing",
the tool immediately returns a result embedding the request id in the
sentinel `image_url` value `processing:<id>`; the pending state is the
panel's final artwork — there is no retry, backoff, or attempt ceiling. -/
theorem image_pending_passthrough (resp : MLResponse) (prompt : String)
    (style : Option String) (model : String) (width height : Int)
    (h : resp.status = "processing") :
    imageToolRun resp prompt style model width height =
      Except.ok (pendingSentinel resp prompt style model width height) := by
  unfold imageToolRun
  rw [h]
  simp

/-- Witness for `image_pending_passthrough` on the concrete pending
response. -/
theorem image_pending_passthrough_witness :
    pendingResp.status = "processing" ∧
    imageToolRun pendingResp "a cat" (some "manga") "flux" 512 768 =
      Except.ok (pendingSentinel pendingResp "a cat" (some "manga") "flux" 512 768) :=
  ⟨rfl, image_pending_passthrough pendingResp "a cat" (some "manga") "flux" 512 768 rfl⟩

/-- C7: for every job and every outcome of the background task, the job
record's status follows the state machine
`queued → processing → (completed or failed)` across every consecutive pair
of updates, the progress value is monotone nondecreasing across every update,
the trace starts at the queued record created on submission, and it ends in a
terminal status matching the outcome. -/
theorem job_state_machine (jobId : String) (outcome : GenOutcome) :
    (jobTrace jobId outcome).Chain'
      (fun a b => statusStep a.status b.status ∧ a.progress ≤ b.progress) ∧
    (jobTrace jobId outcome).head? = some (initialJob jobId) ∧
    (∃ last, (jobTrace jobId outcome).getLast? = some last ∧
      (match outcome with
       | GenOutcome.success _ => last.status = "completed" ∧ last.progress = 1
       | _ => last.status = "failed")) := by
  cases outcome with
  | ctorFail m =>
    refine ⟨?_, rfl, ?_⟩
    · simp only [jobTrace, initialJob, List.chain'_cons, List.chain'_singleton,
        and_true, statusStep]
      norm_num
    · exact ⟨_, rfl, rfl⟩
  | generateFail m =>
    refine ⟨?_, rfl, ?_⟩
    · simp only [jobTrace, initialJob, List.chain'_cons, List.chain'_singleton,
        and_true, statusStep]
      norm_num
    · exact ⟨_, rfl, rfl⟩
  | success r =>
    refine ⟨?_, rfl, ?_⟩
    · simp only [jobTrace, initialJob, List.chain'_cons, List.chain'_singleton,
        and_true, statusStep]
      norm_num
    · exact ⟨_, rfl, rfl, rfl⟩

/-! ## Fan-out / fan-in theorems -/

lemma lookup_of_mem_of_nodup_keys {α : Type} :
    ∀ (l : List (Nat × α)) (k : Nat) (v : α),
      (l.map Prod.fst).Nodup → (k, v) ∈ l → l.lookup k = some v := by
  intro l
  induction l with
  | nil => intro k v _ hm; simp at hm
  | cons p t ih =>
    intro k v hnd hm
    obtain ⟨k₀, v₀⟩ := p
    rw [List.map_cons, List.nodup_cons] at hnd
    rcases List.mem_cons.mp hm with heq | ht
    · injection heq with h1 h2
      subst h1
      subst h2
      exact List.lookup_cons_self
    · by_cases hk : k = k₀
      · subst hk
        exact absurd (List.mem_map_of_mem Prod.fst ht) hnd.1
      have hbeq : (k == k₀) = false := by simp [hk]
      calc ((k₀, v₀) :: t).lookup k = t.lookup k := by
            simp [List.lookup, hbeq]
        _ = some v := ih k v hnd.2 ht

lemma lookup_perm_of_nodup_keys {α : Type} {l₁ l₂ : List (Nat × α)}
    (h : l₁.Perm l₂) (hnd : (l₂.map Prod.fst).Nodup) (k : Nat) :
    l₁.lookup k = l₂.lookup k := by
  cases hl : l₁.lookup k with
  | none =>
    rw [List.lookup_eq_none_iff] at hl
    symm
    rw [List.lookup_eq_none_iff]
    intro p hp
    exact hl p (h.mem_iff.mpr hp)
  | some v =>
    obtain ⟨la, lb, hsplit, _⟩ := List.lookup_eq_some_iff.mp hl
    have hmem : (k, v) ∈ l₂ := h.mem_iff.mp (by rw [hsplit]; simp)
    exact (lookup_of_mem_of_nodup_keys l₂ k v hnd hmem).symm

lemma lookup_enum {α : Type} (l : List α) (i : Nat) :
    l.enum.lookup i = l[i]? := by
  cases hg : l[i]? with
  | some a =>
    have hmem : (i, a) ∈ l.enum := List.mk_mem_enum_iff_getElem?.mpr hg
    exact lookup_of_mem_of_nodup_keys l.enum i a (List.nodup_enum_map_fst l) hmem
  | none =>
    rw [List.lookup_eq_none_iff]
    intro p hp
    have hlt : p.1 < l.length := by
      obtain ⟨p1, p2⟩ := p
      have := List.mk_mem_enum_iff_getElem?.mp hp
      exact (List.getElem?_eq_some.mp this).1
    have hge : l.length ≤ i := List.getElem?_eq_none_iff.mp hg
    simp only [bne_iff_ne, ne_eq]
    omega

lemma filterMap_range_getElem? {α : Type} (l : List α) :
    (List.range l.length).filterMap (fun i => l[i]?) = l := by
  induction l with
  | nil => simp
  | cons a t ih =>
    rw [List.length_cons, List.range_succ_eq_map, List.filterMap_cons,
      List.filterMap_map]
    simp only [List.getElem?_cons_zero, Function.comp_def,
      List.getElem?_cons_succ]
    rw [ih]

lemma reassemble_of_perm_enum {α : Type} (l : List α)
    (results : List (Nat × α)) (h : results.Perm l.enum) :
    reassembleInOrder l.length results = l := by
  unfold reassembleInOrder
  have h1 : ∀ i, results.lookup i = l.enum.lookup i := fun i =>
    lookup_perm_of_nodup_keys h (List.nodup_enum_map_fst l) i
  calc (List.range l.length).filterMap (fun i => results.lookup i)
      = (List.range l.length).filterMap (fun i => l.enum.lookup i) := by
        simp only [h1]
    _ = (List.range l.length).filterMap (fun i => l[i]?) := by
        simp only [lookup_enum]
    _ = l := filterMap_range_getElem? l

lemma enumFrom_map_pair {α β : Type} (f : α → β) :
    ∀ (k : Nat) (l : List α),
      (l.map f).enumFrom k = (l.enumFrom k).map (fun p => (p.1, f p.2)) := by
  intro k l
  induction l generalizing k with
  | nil => simp
  | cons a t ih => simp [List.enumFrom_cons, ih]

lemma kickoffForEach_eq_map (gen : PanelInput → PanelArtwork)
    (inputs : List PanelInput) (completions : List (Nat × PanelInput))
    (h : completions.Perm inputs.enum) :
    kickoffForEach gen inputs completions = inputs.map gen := by
  unfold kickoffForEach
  have hperm : (completions.map (fun c => (c.1, gen c.2))).Perm
      ((inputs.map gen).enum) := by
    have hmap := h.map (fun c => (c.1, gen c.2))
    have henum : (inputs.map gen).enum =
        inputs.enum.map (fun p => (p.1, gen p.2)) :=
      enumFrom_map_pair gen 0 inputs
    rw [henum]
    exact hmap
  have hlen : inputs.length = (inputs.map gen).length := (List.length_map _ _).symm
  rw [hlen]
  exact reassemble_of_perm_enum (inputs.map gen) _ hperm

/-- C5: for every script panel list, the artworks produced by the visual
stage — whatever order the per-panel generations complete in — are exactly
the per-input generations in script order; in particular the output has one
artwork per panel and its `panel_number` sequence equals the script's panel
order (provided, per the data model, generation preserves `panel_number`). -/
theorem visual_stage_order (gen : PanelInput → PanelArtwork)
    (artStyle : String) (palette characters : List String) (summary : String)
    (panels : List Panel) (completions : List (Nat × PanelInput))
    (hcomp : completions.Perm
      ((panels.map (panelInput artStyle palette characters summary)).enum))
    (hgen : ∀ inp, (gen inp).panel_number = inp.panel_number) :
    visualStage gen artStyle palette characters summary panels completions =
      (panels.map (panelInput artStyle palette characters summary)).map gen ∧
    (visualStage gen artStyle palette characters summary panels
      completions).length = panels.length ∧
    (visualStage gen artStyle palette characters summary panels
        completions).map (fun a => a.panel_number) =
      panels.map (fun p => p.panel_number) := by
  have hmain := kickoffForEach_eq_map gen
    (panels.map (panelInput artStyle palette characters summary)) completions hcomp
  refine ⟨hmain, ?_, ?_⟩
  · rw [visualStage, hmain]
    simp
  · rw [visualStage, hmain, List.map_map, List.map_map]
    apply List.map_congr_left
    intro p _
    simp only [Function.comp_def, hgen]
    rfl

/-- Witness for `visual_stage_order`: three panels generated with a mock
generator while the tasks complete in reverse dispatch order. -/
theorem visual_stage_order_witness :
    (mockCompletions.Perm
      ((mockPanels.map (panelInput "cartoon" ["#101010"] ["Robin"]
        "a storm rescue")).enum) ∧
     ∀ inp, (mockGen inp).panel_number = inp.panel_number) ∧
    (visualStage mockGen "cartoon" ["#101010"] ["Robin"] "a storm rescue"
        mockPanels mockCompletions =
      (mockPanels.map (panelInput "cartoon" ["#101010"] ["Robin"]
        "a storm rescue")).map mockGen ∧
     (visualStage mockGen "cartoon" ["#101010"] ["Robin"] "a storm rescue"
        mockPanels mockCompletions).length = mockPanels.length ∧
     (visualStage mockGen "cartoon" ["#101010"] ["Robin"] "a storm rescue"
        mockPanels mockCompletions).map (fun a => a.panel_number) =
      mockPanels.map (fun p => p.panel_number)) :=
  ⟨⟨List.reverse_perm _, fun inp => rfl⟩,
   visual_stage_order mockGen "cartoon" ["#101010"] ["Robin"] "a storm rescue"
     mockPanels mockCompletions (List.reverse_perm _) (fun inp => rfl)⟩

end ComicX
